import Mathlib

/-!
Verification of the color-contrast checking engine.

Shallow embedding of the JavaScript sources:
  - checkContrastCoreLogic.js : hexToRgb, getLuminance, checkContrastCoreLogic
  - checkStaticCCwithCss.js   : parseAndAccumulateCSSFiles, getStylesForClasses,
                                getEffectiveBackgroundColor, rgbToHex, isTextLarge,
                                isHexColor, checkStaticCCwithCss
  - dynamicColorContrastCheck : checkDynamicColorContrastCheck (same helpers)

Modelling conventions:
  - JS numbers are modelled exactly (Nat/Int/Rat for parsing and counters, Real for
    the luminance/contrast arithmetic).  JS doubles are exact on every value these
    functions produce for inputs of realistic size; float rounding on astronomically
    long digit runs is not modelled.
  - JS `null` is `Option.none`; JS string truthiness is `s ≠ ""`.
  - A thrown exception is an `Except.error`; the error message string is abstracted
    to the kind of throw site (`CoreError`), since the checkers only use messages
    as opaque report text.
  - The module-level mutable map `AllCssRule` is threaded as an explicit
    `CssRuleMap` state argument and returned updated.
  - Log arrays (`logs1`/`logs2`) and the Puppeteer page object are reporting-only
    and are represented by the page URL string they contribute to report entries.
-/

/-- Value of one hex digit, `none` for a non-hex character. -/
def hexDigitVal (c : Char) : Option Nat :=
  if c.isDigit then some (c.toNat - 48)
  else if 'a' ≤ c ∧ c ≤ 'f' then some (c.toNat - 87)
  else if 'A' ≤ c ∧ c ≤ 'F' then some (c.toNat - 55)
  else none

/-- Accumulate the leading run of hex digits (stops at the first non-hex char). -/
def hexDigitsVal : List Char → Nat → Nat
  | [], acc => acc
  | c :: cs, acc =>
    match hexDigitVal c with
    | some d => hexDigitsVal cs (16 * acc + d)
    | none => acc

/-- JS `parseInt(s, 16)`: optional sign then the longest hex-digit prefix;
`none` models `NaN` (no digit at all).  Leading whitespace and a `0x` prefix
are not modelled (never produced by the callers). -/
def jsParseIntHex (s : String) : Option Int :=
  let p : Int × List Char :=
    match s.toList with
    | '-' :: r => (-1, r)
    | '+' :: r => (1, r)
    | r => (1, r)
  match p.2 with
  | c :: _ => if (hexDigitVal c).isSome then some (p.1 * (hexDigitsVal p.2 0 : Nat)) else none
  | [] => none

/-- JS `ToUint32` of an exact integer. -/
def toUint32 (n : Int) : Nat := (n % 4294967296).toNat

/-- The regex replace `hex.replace(/^#/, "")`: strip one leading `#`.
(Written on the character list so that it reduces inside the kernel.) -/
def stripLeadingHash (s : String) : String :=
  match s.toList with
  | '#' :: r => String.mk r
  | _ => s

/-- checkContrastCoreLogic.js `hexToRgb` on a (non-null) string.
`parseInt(hex, 16)` giving `NaN` makes every shift-and-mask produce 0,
so the `none` branch yields `(0, 0, 0)` exactly as in JS.
JS `>> k` is `ToInt32` then arithmetic shift, but under the final `& 255`
this agrees with a logical shift of the 32-bit pattern, which is what is
written here.  (The null-argument `TypeError` of the JS function is handled
at the call site in `checkContrastCoreLogic`.) -/
def hexToRgb (hex : String) : Nat × Nat × Nat :=
  let h := stripLeadingHash hex
  match jsParseIntHex h with
  | none => (0, 0, 0)
  | some bigint =>
    let m := toUint32 bigint
    ((m >>> 16) &&& 255, (m >>> 8) &&& 255, m &&& 255)

/-- checkStaticCCwithCss.js / dynamicColorContrastCheck `isHexColor`:
the regex `/^#([0-9A-F]{3}){1,2}$/i`. -/
def isHexColor (color : String) : Bool :=
  match color.toList with
  | '#' :: rest => (rest.length = 3 || rest.length = 6) && rest.all (fun c => (hexDigitVal c).isSome)
  | _ => false

/-- Maximal decimal-digit runs of a character list (the matches of `/\d+/g`),
each run given by its numeric value (JS `parseInt` base 10 on the run). -/
def digitRunsAux : List Char → Option Nat → List Nat
  | [], cur =>
    match cur with
    | some v => [v]
    | none => []
  | c :: cs, cur =>
    if c.isDigit then digitRunsAux cs (some (10 * cur.getD 0 + (c.toNat - 48)))
    else
      match cur with
      | some v => v :: digitRunsAux cs none
      | none => digitRunsAux cs none

def digitRuns (s : String) : List Nat := digitRunsAux s.toList none

/-- JS `ToInt32` of an exact integer. -/
def toInt32 (n : Int) : Int := (n + 2147483648) % 4294967296 - 2147483648

/-- JS `x << k` on an exact integer operand. -/
def jsShl (x : Int) (k : Nat) : Int := toInt32 (toInt32 x * 2 ^ k)

/-- JS `Number.prototype.toString(16)` for an exact integer value. -/
def intToHexJs (n : Int) : String :=
  if n < 0 then "-" ++ String.mk (Nat.toDigits 16 n.natAbs)
  else String.mk (Nat.toDigits 16 n.toNat)

/-- ASCII upper-casing of the lower-case hex alphabet (all
`Number.prototype.toString(16)` can produce besides digits and `-`);
the character-level `String.prototype.toUpperCase` of the caller. -/
def hexUpper (c : Char) : Char :=
  if c == 'a' then 'A'
  else if c == 'b' then 'B'
  else if c == 'c' then 'C'
  else if c == 'd' then 'D'
  else if c == 'e' then 'E'
  else if c == 'f' then 'F'
  else c

/-- checkStaticCCwithCss.js / dynamicColorContrastCheck `rgbToHex`:
`rgb.match(/\d+/g)` then `#` + upper-case hex of `(1<<24)+(r<<16)+(g<<8)+b`
with the first character sliced off.  With fewer than three digit runs the
destructured `g`/`b` are `undefined`, `parseInt(undefined)` is `NaN`, the sum
is `NaN`, and the JS expression evaluates to the literal string `"#AN"`
(`"NaN".slice(1).toUpperCase()`). -/
def rgbToHex (rgb : String) : Option String :=
  match digitRuns rgb with
  | [] => none
  | [_] => some "#AN"
  | [_, _] => some "#AN"
  | r :: g :: b :: _ =>
    let n : Int := jsShl 1 24 + jsShl (r : Int) 16 + jsShl (g : Int) 8 + (b : Int)
    some ("#" ++ String.mk (((intToHexJs n).toList.drop 1).map hexUpper))

/-- Split a list at the end of its leading decimal-digit run. -/
def takeDigits : List Char → List Char × List Char
  | [] => ([], [])
  | c :: cs =>
    if c.isDigit then
      let p := takeDigits cs
      (c :: p.1, p.2)
    else ([], c :: cs)

/-- Decimal value of a digit list. -/
def digitsVal (ds : List Char) : Nat := ds.foldl (fun a c => 10 * a + (c.toNat - 48)) 0

/-- An exact finite decimal `num / 10 ^ scale` (the values JS `parseFloat`
produces here; exact rational representation of the parsed literal). -/
structure JsNum where
  num : Int
  scale : Nat
  deriving DecidableEq

/-- The rational value of a parsed decimal. -/
def JsNum.toRat (a : JsNum) : ℚ := (a.num : ℚ) / (10 : ℚ) ^ a.scale

/-- JS `x >= n` for a parsed decimal `x` and an integer literal `n`
(`n ≤ num / 10 ^ scale`, cleared of the denominator so that it evaluates
inside the kernel; see `JsNum.geInt_toRat`). -/
def JsNum.geInt (a : JsNum) (n : Int) : Bool :=
  decide (n * (10 : Int) ^ a.scale ≤ a.num)

/-- JS `parseFloat`: optional sign, integer digits, optional fraction; `none`
models `NaN` (no digit before or after the dot).  Exponents, `Infinity` and
leading whitespace are not modelled (never produced by the style sources). -/
def jsParseFloat (s : String) : Option JsNum :=
  let p : Int × List Char :=
    match s.toList with
    | '-' :: r => (-1, r)
    | '+' :: r => (1, r)
    | r => (1, r)
  let ip := takeDigits p.2
  let fp : List Char :=
    match ip.2 with
    | '.' :: r => (takeDigits r).1
    | _ => []
  if ip.1.length + fp.length = 0 then none
  else some ⟨p.1 * ((digitsVal ip.1 : Int) * (10 : Int) ^ fp.length + (digitsVal fp : Int)), fp.length⟩

/-- JS `parseInt` (base 10): optional sign then the longest decimal-digit
prefix; `none` models `NaN`. -/
def jsParseInt (s : String) : Option Int :=
  let p : Int × List Char :=
    match s.toList with
    | '-' :: r => (-1, r)
    | '+' :: r => (1, r)
    | r => (1, r)
  let ds := (takeDigits p.2).1
  if ds.length = 0 then none else some (p.1 * (digitsVal ds : Int))

/-- checkStaticCCwithCss.js / dynamicColorContrastCheck `isTextLarge`:
`parseFloat(fontSize) >= 18 || (parseFloat(fontSize) >= 14 && parseInt(fontWeight) >= 700)`.
A `NaN` (here `none`) makes every `>=` comparison false. -/
def isTextLarge (fontSize fontWeight : String) : Bool :=
  let sizeInPx := jsParseFloat fontSize
  let isBold :=
    match jsParseInt fontWeight with
    | some w => decide (700 ≤ w)
    | none => false
  (match sizeInPx with
   | some s => s.geInt 18
   | none => false) ||
  ((match sizeInPx with
    | some s => s.geInt 14
    | none => false) && isBold)

/-- checkStaticCCwithCss.js / dynamicColorContrastCheck
`getEffectiveBackgroundColor`, on the chain of own computed background colors
of an element and its ancestors (element first, root last; `""` models a falsy
own background).  The empty chain is the `!element` base case. -/
def getEffectiveBackgroundColor : List String → String
  | [] => "rgb(255, 255, 255)"
  | bg :: parents =>
    if bg ≠ "" ∧ bg ≠ "rgba(0, 0, 0, 0)" ∧ bg ≠ "transparent" then bg
    else getEffectiveBackgroundColor parents

/-! ## StyleSheetIndex: the `AllCssRule` map and its construction -/

/-- A JS object used as a property → value map (insertion order is irrelevant
to the checkers, which only read single keys). -/
abbrev PropBag := List (String × String)

/-- The module-level `AllCssRule` object: class-name → property bag. -/
abbrev CssRuleMap := List (String × PropBag)

def bagGet (bag : PropBag) (p : String) : Option String :=
  (bag.find? (fun kv => kv.1 == p)).map (fun kv => kv.2)

/-- `bag[p] = v`: overwrite the binding for `p`. -/
def bagSet (bag : PropBag) (p v : String) : PropBag :=
  bag.filter (fun kv => !(kv.1 == p)) ++ [(p, v)]

def mapGet (st : CssRuleMap) (c : String) : Option PropBag :=
  (st.find? (fun kv => kv.1 == c)).map (fun kv => kv.2)

/-- `AllCssRule[className][property] = value`, creating `AllCssRule[className]`
as `{}` first when absent (the `if (!AllCssRule[className])` guard). -/
def mapSetProp (st : CssRuleMap) (c p v : String) : CssRuleMap :=
  match mapGet st c with
  | some bag => st.filter (fun kv => !(kv.1 == c)) ++ [(c, bagSet bag p v)]
  | none => st ++ [(c, bagSet [] p v)]

/-- One rule of the `css` package's parse tree (`rule.type`, `rule.selectors`,
`rule.declarations` as property/value pairs). -/
structure CssRule where
  type : String
  selectors : List String
  declarations : List (String × String)

/-- A CSS file named in `cssFiles.json`: its path string and its parse result;
`none` models a `css.parse` exception (the `catch` skips the file). -/
structure CssFile where
  path : String
  parsed : Option (List CssRule)

/-- JS `String.prototype.split` with a one-character separator, on character
lists (the only form the checkers use). -/
def splitOnChar (sep : Char) (cs : List Char) : List (List Char) :=
  cs.foldr
    (fun c acc =>
      match acc with
      | g :: gs => if c == sep then [] :: g :: gs else (c :: g) :: gs
      | [] => [[c]])
    [[]]

/-- `path.split("\\")` last component (`temp[temp.length - 1]`). -/
def fileBaseName (p : String) : String :=
  String.mk ((splitOnChar '\\' p.toList).getLastD [])

/-- The regex replace `selector.replace(/^\./, "")`: strip one leading dot. -/
def stripLeadingDot (s : String) : String :=
  match s.toList with
  | '.' :: r => String.mk r
  | _ => s

/-- The body of the `rules.forEach` in `parseAndAccumulateCSSFiles`: for a
rule of type `"rule"`, every selector (leading dot stripped) receives every
declaration, later assignments overwriting earlier ones. -/
def applyRule (st : CssRuleMap) (rule : CssRule) : CssRuleMap :=
  if rule.type = "rule" then
    rule.selectors.foldl
      (fun st sel =>
        let className := stripLeadingDot sel
        rule.declarations.foldl (fun st pv => mapSetProp st className pv.1 pv.2) st)
      st
  else st

/-- checkStaticCCwithCss.js `parseAndAccumulateCSSFiles`: filter the known CSS
files to those whose base name occurs in `styleSheetnameArray`, then accumulate
every rule of every successfully parsed file into the (threaded) `AllCssRule`
state.  A file whose parse fails contributes nothing. -/
def parseAndAccumulateCSSFiles (cssFiles : List CssFile) (styleSheetnameArray : List String)
    (st : CssRuleMap) : CssRuleMap :=
  let files := cssFiles.filter (fun f => styleSheetnameArray.contains (fileBaseName f.path))
  files.foldl
    (fun st f =>
      match f.parsed with
      | none => st
      | some rules => rules.foldl applyRule st)
    st

/-- The accumulator of `getStylesForClasses` (fields start as `null`). -/
structure StylesAcc where
  textColor : Option String
  backgroundColor : Option String
  fontSize : Option String
  fontWeight : Option String
  deriving DecidableEq

/-- One iteration of the `classList.forEach` in `getStylesForClasses`:
each of the four recognized properties overwrites the accumulator when its
value is truthy (`if (styles.color) ...`). -/
def applyClassStyles (st : CssRuleMap) (acc : StylesAcc) (className : String) : StylesAcc :=
  let styles := (mapGet st className).getD []
  let acc :=
    match bagGet styles "color" with
    | some v => if v ≠ "" then { acc with textColor := some v } else acc
    | none => acc
  let acc :=
    match bagGet styles "background-color" with
    | some v => if v ≠ "" then { acc with backgroundColor := some v } else acc
    | none => acc
  let acc :=
    match bagGet styles "font-size" with
    | some v => if v ≠ "" then { acc with fontSize := some v } else acc
    | none => acc
  match bagGet styles "font-weight" with
  | some v => if v ≠ "" then { acc with fontWeight := some v } else acc
  | none => acc

/-- checkStaticCCwithCss.js `getStylesForClasses` (reading the threaded
`AllCssRule` state). -/
def getStylesForClasses (st : CssRuleMap) (classList : List String) : StylesAcc :=
  classList.foldl (applyClassStyles st) ⟨none, none, none, none⟩

/-! ## ColorModel: luminance and contrast over ℝ -/

/-- The per-channel sRGB linearization inside getLuminance:
`value <= 0.03928 ? value / 12.92 : Math.pow((value + 0.055) / 1.055, 2.4)`. -/
noncomputable def srgbChannel (v : ℝ) : ℝ :=
  if v ≤ 0.03928 then v / 12.92 else ((v + 0.055) / 1.055) ^ (2.4 : ℝ)

/-- checkContrastCoreLogic.js `getLuminance` on an 8-bit RGB triple. -/
noncomputable def getLuminance (c : Nat × Nat × Nat) : ℝ :=
  0.2126 * srgbChannel ((c.1 : ℝ) / 255) +
  0.7152 * srgbChannel ((c.2.1 : ℝ) / 255) +
  0.0722 * srgbChannel ((c.2.2 : ℝ) / 255)

/-- The contrast-ratio expression of checkContrastCoreLogic.js:
`(max(l1, l2) + 0.05) / (min(l1, l2) + 0.05)`. -/
noncomputable def contrastRatioR (l1 l2 : ℝ) : ℝ :=
  (max l1 l2 + 0.05) / (min l1 l2 + 0.05)

/-- The required-contrast table of checkContrastCoreLogic.js; `none` models the
`Invalid contrast level` throw. -/
def requiredContrast (contrastLevel : String) (isLargeText : Bool) : Option ℚ :=
  if contrastLevel = "AAA" then some (if isLargeText then 4.5 else 7.0)
  else if contrastLevel = "AA" then some (if isLargeText then 3.0 else 4.5)
  else none

/-- The three throw sites reachable through `checkContrastCoreLogic` (messages
abstracted to their kind). -/
inductive CoreError where
  | typeError
  | invalidLevel
  | contrastFailure
  deriving DecidableEq

/-- checkContrastCoreLogic.js `checkContrastCoreLogic`.  The hex color
arguments are `Option String` because the static caller passes the possibly
null result of `rgbToHex`; a null argument makes `hexToRgb`'s
`hex.replace(/^#/, "")` throw a `TypeError` before any contrast logic runs.
Normal termination (no throw) is `Except.ok`. -/
noncomputable def checkContrastCoreLogic (hexTextColor hexBackgroundColor : Option String)
    (isLargeText : Bool) (contrastLevel : String) : Except CoreError Unit :=
  match hexTextColor, hexBackgroundColor with
  | some ht, some hb =>
    let textLuminance := getLuminance (hexToRgb ht)
    let backgroundLuminance := getLuminance (hexToRgb hb)
    match requiredContrast contrastLevel isLargeText with
    | none => Except.error CoreError.invalidLevel
    | some requiredVal =>
      if contrastRatioR textLuminance backgroundLuminance < (requiredVal : ℝ) then
        Except.error CoreError.contrastFailure
      else Except.ok ()
  | _, _ => Except.error CoreError.typeError

/-! ## EvaluationPipeline: the two checkers -/

/-- One row of the `data` array pushed on a caught error:
`{ Tag, PageName, Reason_For_Failing }`. -/
structure ReportEntry where
  tag : String
  pageName : String
  reasonForFailing : CoreError
  deriving DecidableEq

/-- The value returned by both checkers:
`{ xlsxArray, totalChecked, totalFailed }`. -/
structure RunResult where
  xlsxArray : List ReportEntry
  totalChecked : Nat
  totalFailed : Nat
  deriving DecidableEq

/-- `parts.join("/")` on character-list pieces. -/
def joinWithSlash : List (List Char) → List Char
  | [] => []
  | [x] => x
  | x :: xs => x ++ '/' :: joinWithSlash xs

/-- `(await page.url()).split("/")` then `title.slice(title.length - 2).join("/")`. -/
def pageNameOf (pageUrl : String) : String :=
  let title := splitOnChar '/' pageUrl.toList
  String.mk (joinWithSlash (title.drop (title.length - 2)))

/-- An element record fetched by the static checker's `page.evaluate`. -/
structure StaticElem where
  text : String
  html : String
  selector : String
  id : Option String
  classList : List String
  effectiveBackgroundColor : String

/-- JS `x || y` where `x` is a string-or-null. -/
def jsOrOpt (x : Option String) (y : String) : String :=
  match x with
  | some v => if v = "" then y else v
  | none => y

/-- JS `x || y` on strings. -/
def jsOrStr (x y : String) : String := if x = "" then y else x

/-- The style-resolution part of one static-checker loop iteration:
`getStylesForClasses`, the `backgroundColor`/`fontSize`/`fontWeight` default
chains, the `if (textColor && backgroundColor)` guard (`none` means the guard
fails and no contrast check runs), and the hex conversion plus size
classification passed to `checkContrast`. -/
def resolveStaticHex (st : CssRuleMap) (e : StaticElem) : Option (Option String × Option String × Bool) :=
  let s := getStylesForClasses st e.classList
  let backgroundColor := jsOrOpt s.backgroundColor (jsOrStr e.effectiveBackgroundColor "rgb(255,255,255)")
  let fontSize := jsOrOpt s.fontSize "16px"
  let fontWeight := jsOrOpt s.fontWeight "400"
  match s.textColor with
  | none => none
  | some textColor =>
    if textColor ≠ "" ∧ backgroundColor ≠ "" then
      some (if isHexColor textColor then some textColor else rgbToHex textColor,
            if isHexColor backgroundColor then some backgroundColor else rgbToHex backgroundColor,
            isTextLarge fontSize fontWeight)
    else none

/-- One iteration of the static checker's `for (const element of elements)`:
skip empty text, increment `totalChecked`, resolve styles, and on a caught
error increment `totalFailed` and push a report row. -/
noncomputable def staticStep (st : CssRuleMap) (pageUrl : String) (acc : RunResult)
    (e : StaticElem) : RunResult :=
  if e.text = "" then acc
  else
    match resolveStaticHex st e with
    | none => { acc with totalChecked := acc.totalChecked + 1 }
    | some (hexT, hexB, large) =>
      match checkContrastCoreLogic hexT hexB large "AA" with
      | Except.ok _ => { acc with totalChecked := acc.totalChecked + 1 }
      | Except.error err =>
        ⟨acc.xlsxArray ++ [⟨e.html, pageNameOf pageUrl, err⟩],
         acc.totalChecked + 1, acc.totalFailed + 1⟩

/-- checkStaticCCwithCss.js `checkStaticCCwithCss`.  The module-level
`AllCssRule` map is threaded explicitly: it enters as `st` and the updated
map is returned next to the run result. -/
noncomputable def checkStaticCCwithCss (cssFiles : List CssFile)
    (styleSheetnameArray : List String) (pageUrl : String)
    (elements : List StaticElem) (st : CssRuleMap) : CssRuleMap × RunResult :=
  let st2 := parseAndAccumulateCSSFiles cssFiles styleSheetnameArray st
  (st2, elements.foldl (staticStep st2 pageUrl) ⟨[], 0, 0⟩)

/-- An element record fetched by the dynamic checker's `page.evaluate`
(`computedStyles` inlined). -/
structure DynElem where
  text : String
  html : String
  selector : String
  id : Option String
  classList : List String
  textColor : String
  backgroundColor : String
  fontSize : String
  fontWeight : String

/-- The `if (textColor && backgroundColor)` guard and hex conversion of one
dynamic-checker iteration. -/
def resolveDynHex (e : DynElem) : Option (Option String × Option String × Bool) :=
  if e.textColor ≠ "" ∧ e.backgroundColor ≠ "" then
    some (if isHexColor e.textColor then some e.textColor else rgbToHex e.textColor,
          if isHexColor e.backgroundColor then some e.backgroundColor else rgbToHex e.backgroundColor,
          isTextLarge e.fontSize e.fontWeight)
  else none

/-- One iteration of the dynamic checker's element loop: skip empty text,
increment `totalChecked`, then skip (without verdict) when the background is
the transparent sentinel, otherwise check and record failures. -/
noncomputable def dynStep (pageUrl : String) (acc : RunResult) (e : DynElem) : RunResult :=
  if e.text = "" then acc
  else if e.backgroundColor = "rgba(0, 0, 0, 0)" ∨ e.backgroundColor = "transparent" then
    { acc with totalChecked := acc.totalChecked + 1 }
  else
    match resolveDynHex e with
    | none => { acc with totalChecked := acc.totalChecked + 1 }
    | some (hexT, hexB, large) =>
      match checkContrastCoreLogic hexT hexB large "AA" with
      | Except.ok _ => { acc with totalChecked := acc.totalChecked + 1 }
      | Except.error err =>
        ⟨acc.xlsxArray ++ [⟨e.html, pageNameOf pageUrl, err⟩],
         acc.totalChecked + 1, acc.totalFailed + 1⟩

/-- dynamicColorContrastCheck `checkDynamicColorContrastCheck`. -/
noncomputable def checkDynamicColorContrastCheck (pageUrl : String)
    (elements : List DynElem) : RunResult :=
  elements.foldl (dynStep pageUrl) ⟨[], 0, 0⟩

/-! ## Concrete fixtures used in counterexamples and witnesses -/

/-- A stylesheet whose single rule gives class `c` the named color `blue`
(a color string with no numeric channel triple). -/
def blueCssFile : CssFile :=
  ⟨"s.css", some [⟨"rule", [".c"], [("color", "blue")]⟩]⟩

/-- A static element of class `c` with text. -/
def blueElem : StaticElem :=
  ⟨"hello", "<p class=c>hello</p>", "p", none, ["c"], "rgb(255, 255, 255)"⟩

/-- A dynamic element with text whose background is the transparent sentinel. -/
def transElem : DynElem :=
  ⟨"x", "<p>x</p>", "p", none, [], "#000000", "transparent", "16px", "400"⟩

/-- A second such element, used to instantiate the amended claim. -/
def transElem2 : DynElem :=
  ⟨"y", "<span>y</span>", "span", none, [], "#000000", "rgba(0, 0, 0, 0)", "16px", "400"⟩

/-- A stylesheet whose single rule has the tag selector `div` (no leading dot). -/
def tagRuleFile : CssFile :=
  ⟨"t.css", some [⟨"rule", ["div"], [("color", "#123456")]⟩]⟩

/-- A stylesheet giving class `a` white text. -/
def whiteCssFile : CssFile :=
  ⟨"a.css", some [⟨"rule", [".a"], [("color", "#FFFFFF")]⟩]⟩

/-- A static element of class `a` on a white effective background. -/
def whiteElem : StaticElem :=
  ⟨"x", "<p class=a>x</p>", "p", none, ["a"], "rgb(255, 255, 255)"⟩

/-! ## Helper lemmas -/

theorem JsNum.geInt_toRat (a : JsNum) (n : Int) :
    a.geInt n = decide ((n : ℚ) ≤ a.toRat) := by
  unfold JsNum.geInt JsNum.toRat
  refine decide_eq_decide.mpr ?_
  rw [le_div_iff₀ (by positivity)]
  constructor
  · intro h
    exact_mod_cast h
  · intro h
    exact_mod_cast h

theorem srgbChannel_nonneg (v : ℝ) (hv : 0 ≤ v) : 0 ≤ srgbChannel v := by
  unfold srgbChannel
  split
  · positivity
  · exact Real.rpow_nonneg (by positivity) _

theorem getLuminance_nonneg (c : Nat × Nat × Nat) : 0 ≤ getLuminance c := by
  unfold getLuminance
  have h1 := srgbChannel_nonneg ((c.1 : ℝ) / 255) (by positivity)
  have h2 := srgbChannel_nonneg ((c.2.1 : ℝ) / 255) (by positivity)
  have h3 := srgbChannel_nonneg ((c.2.2 : ℝ) / 255) (by positivity)
  nlinarith

theorem srgbChannel_one : srgbChannel 1 = 1 := by
  unfold srgbChannel
  rw [if_neg (by norm_num)]
  have h : ((1 : ℝ) + 0.055) / 1.055 = 1 := by norm_num
  rw [h, Real.one_rpow]

theorem getLuminance_white : getLuminance (255, 255, 255) = 1 := by
  unfold getLuminance
  norm_num [srgbChannel_one]

theorem contrastRatioR_self (l : ℝ) (h : 0 ≤ l) : contrastRatioR l l = 1 := by
  unfold contrastRatioR
  rw [max_self, min_self]
  exact div_self (by linarith)

/-- White-on-white text fails the AA check (ratio 1 < 4.5). -/
theorem checkContrast_white_white :
    checkContrastCoreLogic (some "#FFFFFF") (some "#FFFFFF") false "AA" =
      Except.error CoreError.contrastFailure := by
  have hx : hexToRgb "#FFFFFF" = (255, 255, 255) := by decide
  show (match requiredContrast "AA" false with
        | none => Except.error CoreError.invalidLevel
        | some requiredVal =>
          if contrastRatioR (getLuminance (hexToRgb "#FFFFFF")) (getLuminance (hexToRgb "#FFFFFF"))
              < (requiredVal : ℝ) then
            Except.error CoreError.contrastFailure
          else Except.ok ()) = Except.error CoreError.contrastFailure
  rw [hx, getLuminance_white, contrastRatioR_self 1 (by norm_num)]
  show (if (1 : ℝ) < ((4.5 : ℚ) : ℝ) then Except.error CoreError.contrastFailure
        else Except.ok ()) = Except.error CoreError.contrastFailure
  rw [if_pos (by norm_num)]

theorem staticStep_text_empty (st : CssRuleMap) (u : String) (acc : RunResult) (e : StaticElem)
    (h : e.text = "") : staticStep st u acc e = acc := by
  unfold staticStep
  rw [if_pos h]

theorem staticStep_noCheck (st : CssRuleMap) (u : String) (acc : RunResult) (e : StaticElem)
    (h1 : e.text ≠ "") (h2 : resolveStaticHex st e = none) :
    staticStep st u acc e = { acc with totalChecked := acc.totalChecked + 1 } := by
  unfold staticStep
  rw [if_neg h1]
  simp only [h2]

theorem staticStep_ok (st : CssRuleMap) (u : String) (acc : RunResult) (e : StaticElem)
    (ht hb : Option String) (lg : Bool)
    (h1 : e.text ≠ "") (h2 : resolveStaticHex st e = some (ht, hb, lg))
    (h3 : checkContrastCoreLogic ht hb lg "AA" = Except.ok ()) :
    staticStep st u acc e = { acc with totalChecked := acc.totalChecked + 1 } := by
  unfold staticStep
  rw [if_neg h1]
  simp only [h2, h3]

theorem staticStep_err (st : CssRuleMap) (u : String) (acc : RunResult) (e : StaticElem)
    (ht hb : Option String) (lg : Bool) (err : CoreError)
    (h1 : e.text ≠ "") (h2 : resolveStaticHex st e = some (ht, hb, lg))
    (h3 : checkContrastCoreLogic ht hb lg "AA" = Except.error err) :
    staticStep st u acc e =
      ⟨acc.xlsxArray ++ [⟨e.html, pageNameOf u, err⟩],
       acc.totalChecked + 1, acc.totalFailed + 1⟩ := by
  unfold staticStep
  rw [if_neg h1]
  simp only [h2, h3]

theorem staticStep_inv (st : CssRuleMap) (u : String) (acc : RunResult) (e : StaticElem)
    (h : acc.totalFailed ≤ acc.totalChecked) :
    (staticStep st u acc e).totalFailed ≤ (staticStep st u acc e).totalChecked := by
  unfold staticStep
  split
  · exact h
  · split
    · exact Nat.le_succ_of_le h
    · split
      · exact Nat.le_succ_of_le h
      · exact Nat.succ_le_succ h

theorem dynStep_sentinel (u : String) (acc : RunResult) (e : DynElem)
    (h1 : e.text ≠ "")
    (h2 : e.backgroundColor = "rgba(0, 0, 0, 0)" ∨ e.backgroundColor = "transparent") :
    dynStep u acc e = { acc with totalChecked := acc.totalChecked + 1 } := by
  unfold dynStep
  rw [if_neg h1, if_pos h2]

theorem dynStep_checked (u : String) (acc : RunResult) (e : DynElem) :
    (dynStep u acc e).totalChecked =
      if e.text = "" then acc.totalChecked else acc.totalChecked + 1 := by
  unfold dynStep
  by_cases h : e.text = ""
  · rw [if_pos h, if_pos h]
  · rw [if_neg h, if_neg h]
    split
    · rfl
    · split
      · rfl
      · split
        · rfl
        · rfl

theorem dynStep_inv (u : String) (acc : RunResult) (e : DynElem)
    (h : acc.totalFailed ≤ acc.totalChecked) :
    (dynStep u acc e).totalFailed ≤ (dynStep u acc e).totalChecked := by
  unfold dynStep
  split
  · exact h
  · split
    · exact Nat.le_succ_of_le h
    · split
      · exact Nat.le_succ_of_le h
      · split
        · exact Nat.le_succ_of_le h
        · exact Nat.succ_le_succ h

theorem foldl_runResult_inv {α : Type} (f : RunResult → α → RunResult)
    (hf : ∀ acc a, acc.totalFailed ≤ acc.totalChecked →
      (f acc a).totalFailed ≤ (f acc a).totalChecked) :
    ∀ (l : List α) (acc : RunResult), acc.totalFailed ≤ acc.totalChecked →
      (l.foldl f acc).totalFailed ≤ (l.foldl f acc).totalChecked := by
  intro l
  induction l with
  | nil => intro acc h; exact h
  | cons a t ih => intro acc h; exact ih _ (hf _ _ h)

theorem dyn_fold_checked (u : String) :
    ∀ (l : List DynElem) (acc : RunResult),
      (l.foldl (dynStep u) acc).totalChecked =
        acc.totalChecked + (l.filter (fun e => e.text != "")).length := by
  intro l
  induction l with
  | nil => intro acc; simp
  | cons e t ih =>
    intro acc
    simp only [List.foldl, List.filter]
    rw [ih, dynStep_checked]
    by_cases h : e.text = ""
    · rw [if_pos h]
      simp [h]
    · rw [if_neg h]
      have hb : (e.text != "") = true := by simpa using h
      rw [hb]
      simp [Nat.add_comm, Nat.add_assoc, Nat.add_left_comm]

theorem find?_filter_ne_none (l : List (String × PropBag)) (c : String) :
    (l.filter (fun kv => !(kv.1 == c))).find? (fun kv => kv.1 == c) = none := by
  apply List.find?_eq_none.mpr
  intro kv hkv
  have h := List.of_mem_filter hkv
  simp at h
  simp [h]

theorem mapGet_setProp_same (st : CssRuleMap) (c p v : String) :
    mapGet (mapSetProp st c p v) c = some (bagSet ((mapGet st c).getD []) p v) := by
  unfold mapSetProp
  cases h : mapGet st c with
  | none =>
    simp only [h, Option.getD_none]
    unfold mapGet
    rw [List.find?_append]
    cases hf : st.find? (fun kv => kv.1 == c) with
    | none => simp [List.find?]
    | some kv =>
      exfalso
      unfold mapGet at h
      rw [hf] at h
      simp at h
  | some bag =>
    simp only [h, Option.getD_some]
    unfold mapGet
    rw [List.find?_append, find?_filter_ne_none]
    simp [List.find?]

theorem foldl_setProp_get (sel : String) :
    ∀ (decls : List (String × String)) (st : CssRuleMap) (bag : PropBag),
      mapGet st sel = some bag →
      mapGet (decls.foldl (fun st pv => mapSetProp st sel pv.1 pv.2) st) sel =
        some (decls.foldl (fun bag pv => bagSet bag pv.1 pv.2) bag) := by
  intro decls
  induction decls with
  | nil => intro st bag h; exact h
  | cons pv rest ih =>
    intro st bag h
    simp only [List.foldl]
    apply ih
    rw [mapGet_setProp_same, h, Option.getD_some]

theorem stripLeadingDot_of_head (s : String) (h : s.toList.head? ≠ some '.') :
    stripLeadingDot s = s := by
  unfold stripLeadingDot
  split
  · rename_i r heq
    refine absurd ?_ h
    rw [heq]
    rfl
  · rfl

/-- Claim C4 (amended): the accumulator does not ignore non-class selectors;
a rule whose selector does not begin with a dot is indexed under the raw
selector text (the dot-strip is a no-op on it), with its declarations merged
later-wins, so a class list containing that text observes them. -/
theorem build_indexes_nonclass (nm sel p v : String) (rest : List (String × String))
    (hsel : sel.toList.head? ≠ some '.') :
    mapGet (parseAndAccumulateCSSFiles [⟨nm, some [⟨"rule", [sel], (p, v) :: rest⟩]⟩]
        [fileBaseName nm] []) sel
      = some (rest.foldl (fun bag pv => bagSet bag pv.1 pv.2) (bagSet [] p v)) := by
  unfold parseAndAccumulateCSSFiles
  have hcontains : ([fileBaseName nm].contains (fileBaseName nm)) = true := by simp
  simp only [List.filter, hcontains, List.foldl]
  unfold applyRule
  rw [if_pos rfl]
  simp only [List.foldl, stripLeadingDot_of_head sel hsel]
  apply foldl_setProp_get
  rw [mapGet_setProp_same]
  rfl

/-! ## Claim theorems -/

theorem ite_error_iff (c : Prop) [Decidable c] :
    ((if c then Except.error CoreError.contrastFailure else Except.ok ()) =
      Except.error CoreError.contrastFailure) ↔ c := by
  by_cases hc : c <;> simp [hc]

/-- Claim C1: for every pair of hex colors, large-text flag and supported level,
the required ratio is 3.0 (AA large), 4.5 (AA normal), 4.5 (AAA large), 7.0
(AAA normal), and the check throws a contrast failure iff the computed
contrast ratio is strictly below the required ratio. -/
theorem checkContrast_level_table (ht hb : String) (isLargeText : Bool) (contrastLevel : String)
    (h : contrastLevel = "AA" ∨ contrastLevel = "AAA") :
    ∃ req : ℚ,
      requiredContrast contrastLevel isLargeText = some req ∧
      req = (if contrastLevel = "AAA" then (if isLargeText then 4.5 else 7.0)
             else (if isLargeText then 3.0 else 4.5)) ∧
      (checkContrastCoreLogic (some ht) (some hb) isLargeText contrastLevel =
          Except.error CoreError.contrastFailure ↔
        contrastRatioR (getLuminance (hexToRgb ht)) (getLuminance (hexToRgb hb)) < (req : ℝ)) := by
  rcases h with h | h
  · subst h
    refine ⟨if isLargeText then 3.0 else 4.5, rfl,
      by rw [if_neg (show ¬ ("AA" : String) = "AAA" by decide)], ?_⟩
    show (if contrastRatioR (getLuminance (hexToRgb ht)) (getLuminance (hexToRgb hb)) <
            (((if isLargeText then 3.0 else 4.5 : ℚ)) : ℝ) then
          Except.error CoreError.contrastFailure else Except.ok ()) =
        Except.error CoreError.contrastFailure ↔
      contrastRatioR (getLuminance (hexToRgb ht)) (getLuminance (hexToRgb hb)) <
        (((if isLargeText then 3.0 else 4.5 : ℚ)) : ℝ)
    exact ite_error_iff _
  · subst h
    refine ⟨if isLargeText then 4.5 else 7.0, rfl, by rw [if_pos rfl], ?_⟩
    show (if contrastRatioR (getLuminance (hexToRgb ht)) (getLuminance (hexToRgb hb)) <
            (((if isLargeText then 4.5 else 7.0 : ℚ)) : ℝ) then
          Except.error CoreError.contrastFailure else Except.ok ()) =
        Except.error CoreError.contrastFailure ↔
      contrastRatioR (getLuminance (hexToRgb ht)) (getLuminance (hexToRgb hb)) <
        (((if isLargeText then 4.5 else 7.0 : ℚ)) : ℝ)
    exact ite_error_iff _

/-- Witness for C1: black text on white background, normal size, level AA. -/
theorem checkContrast_level_table_witness :
    ∃ req : ℚ,
      requiredContrast "AA" false = some req ∧
      req = (if ("AA" : String) = "AAA" then (if (false : Bool) then 4.5 else 7.0)
             else (if (false : Bool) then 3.0 else 4.5)) ∧
      (checkContrastCoreLogic (some "#000000") (some "#FFFFFF") false "AA" =
          Except.error CoreError.contrastFailure ↔
        contrastRatioR (getLuminance (hexToRgb "#000000")) (getLuminance (hexToRgb "#FFFFFF")) <
          (req : ℝ)) :=
  checkContrast_level_table "#000000" "#FFFFFF" false "AA" (Or.inl rfl)

/-- Claim C2 (code evaluation at the failing input): an element whose
text color `blue` yields no parseable numeric channel triple
(`rgbToHex "blue" = none`) is nevertheless counted in `totalChecked` and
recorded as a failure: the null hex color makes `checkContrast` throw a
`TypeError`, which the catch-all turns into `totalFailed = 1` plus a report
row. -/
theorem invalidColor_recorded_as_failure :
    rgbToHex "blue" = none ∧
    (checkStaticCCwithCss [blueCssFile] ["s.css"] "file:///site/page.html" [blueElem] []).2 =
      ⟨[⟨blueElem.html, "site/page.html", CoreError.typeError⟩], 1, 1⟩ := by
  constructor
  · decide
  · have h2 : resolveStaticHex (parseAndAccumulateCSSFiles [blueCssFile] ["s.css"] []) blueElem
        = some (none, some "#FFFFFF", false) := by decide
    have h3 : checkContrastCoreLogic none (some "#FFFFFF") false "AA" =
        Except.error CoreError.typeError := rfl
    show List.foldl
        (staticStep (parseAndAccumulateCSSFiles [blueCssFile] ["s.css"] []) "file:///site/page.html")
        ⟨[], 0, 0⟩ [blueElem] = _
    simp only [List.foldl]
    rw [staticStep_err _ _ _ _ _ _ _ _ (by decide) h2 h3]
    decide

/-- Claim C3 (counterexample): a record with non-empty text whose background
is the transparent sentinel is counted in `totalChecked` (the counter is
incremented before the sentinel check), although the number of records with
non-empty text and a determinable background is 0. -/
theorem transparent_counted_in_totalChecked :
    (checkDynamicColorContrastCheck "file:///site/page.html" [transElem]).totalChecked = 1 ∧
    ([transElem].filter (fun e => e.text != "" &&
        !(e.backgroundColor == "rgba(0, 0, 0, 0)" || e.backgroundColor == "transparent"))).length
      = 0 := by
  constructor
  · show (List.foldl (dynStep "file:///site/page.html") ⟨[], 0, 0⟩ [transElem]).totalChecked = 1
    simp only [List.foldl]
    rw [dynStep_sentinel _ _ _ (by decide) (Or.inr rfl)]
  · decide

/-- Claim C3 (amended): `totalChecked` counts exactly the records with
non-empty text; a transparent-sentinel record still increments `totalChecked`
but receives no verdict (no failure count, no report row). -/
theorem dyn_totalChecked_counts_text (pageUrl : String) (elements : List DynElem) :
    (checkDynamicColorContrastCheck pageUrl elements).totalChecked =
      (elements.filter (fun e => e.text != "")).length ∧
    ∀ (acc : RunResult) (e : DynElem), e.text ≠ "" →
      (e.backgroundColor = "rgba(0, 0, 0, 0)" ∨ e.backgroundColor = "transparent") →
      dynStep pageUrl acc e = { acc with totalChecked := acc.totalChecked + 1 } := by
  constructor
  · show (List.foldl (dynStep pageUrl) ⟨[], 0, 0⟩ elements).totalChecked = _
    rw [dyn_fold_checked]
    exact Nat.zero_add _
  · intro acc e h1 h2
    exact dynStep_sentinel pageUrl acc e h1 h2

/-- Witness for the amended C3 at a one-element transparent-background run. -/
theorem dyn_totalChecked_counts_text_witness :
    (checkDynamicColorContrastCheck "u" [transElem2]).totalChecked =
      ([transElem2].filter (fun e => e.text != "")).length ∧
    dynStep "u" ⟨[], 0, 0⟩ transElem2 =
      { (⟨[], 0, 0⟩ : RunResult) with totalChecked := 0 + 1 } := by
  constructor
  · exact (dyn_totalChecked_counts_text "u" [transElem2]).1
  · exact (dyn_totalChecked_counts_text "u" [transElem2]).2 ⟨[], 0, 0⟩ transElem2
      (by decide) (Or.inl rfl)

/-- Claim C4 (counterexample): the tag rule `div { color: #123456 }` (selector
does not begin with a dot) is indexed by the accumulator, and a lookup for an
element whose class list contains `div` observes its declaration. -/
theorem nonclass_selector_observed :
    ¬ ("div".toList.head? = some '.') ∧
    (getStylesForClasses (parseAndAccumulateCSSFiles [tagRuleFile] ["t.css"] []) ["div"]).textColor
      = some "#123456" := by
  decide

/-- Witness for the amended C4 at the tag selector `div`. -/
theorem build_indexes_nonclass_witness :
    mapGet (parseAndAccumulateCSSFiles [⟨"t.css", some [⟨"rule", ["div"], [("color", "#123456")]⟩]⟩]
        [fileBaseName "t.css"] []) "div"
      = some (([] : List (String × String)).foldl (fun bag pv => bagSet bag pv.1 pv.2)
          (bagSet [] "color" "#123456")) :=
  build_indexes_nonclass "t.css" "div" "color" "#123456" [] (by decide)

/-- Claim C5 (code evaluation at the failing input): `isHexColor` accepts the
three-digit shorthand `#abc`, but `hexToRgb` parses it as the 24-bit number
0x000ABC, giving (0, 10, 188) instead of the CSS expansion `#aabbcc` =
(170, 187, 204). -/
theorem hexShorthand_misparsed :
    isHexColor "#abc" = true ∧
    hexToRgb "#abc" = (0, 10, 188) ∧
    hexToRgb "#aabbcc" = (170, 187, 204) ∧
    hexToRgb "#abc" ≠ hexToRgb "#aabbcc" := by
  decide

/-- Claim C6: in both pipelines, for every input, `totalFailed ≤ totalChecked`. -/
theorem totalFailed_le_totalChecked :
    (∀ (cssFiles : List CssFile) (names : List String) (pageUrl : String)
       (elements : List StaticElem) (st : CssRuleMap),
       (checkStaticCCwithCss cssFiles names pageUrl elements st).2.totalFailed ≤
         (checkStaticCCwithCss cssFiles names pageUrl elements st).2.totalChecked) ∧
    (∀ (pageUrl : String) (elements : List DynElem),
       (checkDynamicColorContrastCheck pageUrl elements).totalFailed ≤
         (checkDynamicColorContrastCheck pageUrl elements).totalChecked) := by
  constructor
  · intro cssFiles names pageUrl elements st
    exact foldl_runResult_inv _ (fun acc e h => staticStep_inv _ _ acc e h)
      elements ⟨[], 0, 0⟩ (Nat.le_refl 0)
  · intro pageUrl elements
    exact foldl_runResult_inv _ (fun acc e h => dynStep_inv _ acc e h)
      elements ⟨[], 0, 0⟩ (Nat.le_refl 0)

/-- Claim C7: `isTextLarge` is true exactly when the parsed font size is at
least 18, or at least 14 with parsed weight at least 700; unparseable inputs
behave as 0 / non-bold, and the four spec examples hold. -/
theorem isTextLarge_spec :
    (∀ fs fw : String,
      isTextLarge fs fw =
        (decide ((18 : ℚ) ≤ ((jsParseFloat fs).map JsNum.toRat).getD 0) ||
         (decide ((14 : ℚ) ≤ ((jsParseFloat fs).map JsNum.toRat).getD 0) &&
          decide ((700 : Int) ≤ (jsParseInt fw).getD 0)))) ∧
    isTextLarge "18px" "400" = true ∧
    isTextLarge "17px" "400" = false ∧
    isTextLarge "14px" "700" = true ∧
    isTextLarge "13px" "700" = false := by
  refine ⟨?_, by decide, by decide, by decide, by decide⟩
  intro fs fw
  unfold isTextLarge
  cases hf : jsParseFloat fs with
  | none =>
    cases hw : jsParseInt fw with
    | none =>
      simp only [Option.map_none, Option.getD_none, Bool.false_and, Bool.false_or]
      have h18 : decide ((18 : ℚ) ≤ 0) = false := by
        simp only [decide_eq_false_iff_not]
        norm_num
      have h14 : decide ((14 : ℚ) ≤ 0) = false := by
        simp only [decide_eq_false_iff_not]
        norm_num
      simp [h18, h14]
    | some w =>
      simp only [Option.map_none, Option.getD_none, Option.getD_some]
      have h18 : decide ((18 : ℚ) ≤ 0) = false := by
        simp only [decide_eq_false_iff_not]
        norm_num
      have h14 : decide ((14 : ℚ) ≤ 0) = false := by
        simp only [decide_eq_false_iff_not]
        norm_num
      simp [h18, h14]
  | some s =>
    cases hw : jsParseInt fw with
    | none =>
      have h700 : decide ((700 : Int) ≤ 0) = false := by decide
      simp [JsNum.geInt_toRat, h700]
    | some w =>
      simp [JsNum.geInt_toRat]

/-- Claim C8 (counterexample): on an all-transparent chain the resolver
returns `"rgb(255, 255, 255)"` (with spaces), not the claimed string
`"rgb(255,255,255)"`. -/
theorem backgroundResolver_string_has_spaces :
    getEffectiveBackgroundColor ["transparent"] = "rgb(255, 255, 255)" ∧
    getEffectiveBackgroundColor ["transparent"] ≠ "rgb(255,255,255)" := by
  decide

/-- Claim C8 (amended): when every element of the chain has an absent or
transparent own background, the resolver returns the root default
`"rgb(255, 255, 255)"`. -/
theorem backgroundResolver_white_at_root (chain : List String)
    (h : ∀ bg ∈ chain, bg = "" ∨ bg = "rgba(0, 0, 0, 0)" ∨ bg = "transparent") :
    getEffectiveBackgroundColor chain = "rgb(255, 255, 255)" := by
  induction chain with
  | nil => rfl
  | cons bg rest ih =>
    unfold getEffectiveBackgroundColor
    rw [if_neg]
    · exact ih (fun b hb => h b (List.mem_cons_of_mem bg hb))
    · have hb := h bg (List.mem_cons_self bg rest)
      rcases hb with h1 | h1 | h1 <;> simp [h1]

/-- Witness for the amended C8 at a three-element all-transparent chain. -/
theorem backgroundResolver_white_at_root_witness :
    getEffectiveBackgroundColor ["transparent", "", "rgba(0, 0, 0, 0)"] = "rgb(255, 255, 255)" :=
  backgroundResolver_white_at_root ["transparent", "", "rgba(0, 0, 0, 0)"] (by decide)

/-- Claim C9: the contrast-ratio expression is symmetric in its two inputs,
and equal luminances (in particular the luminance of any color against
itself) give ratio exactly 1. -/
theorem contrastRatio_symm_and_refl :
    (∀ l1 l2 : ℝ, contrastRatioR l1 l2 = contrastRatioR l2 l1) ∧
    (∀ c : Nat × Nat × Nat, contrastRatioR (getLuminance c) (getLuminance c) = 1) := by
  constructor
  · intro l1 l2
    unfold contrastRatioR
    rw [max_comm, min_comm]
  · intro c
    exact contrastRatioR_self _ (getLuminance_nonneg c)

/-- Claim C10: the rule store accumulated by one call to the static checker
remains visible to a later call with a different stylesheet name set, so the
second call's output depends on the first call's inputs. -/
theorem allCssRule_state_leaks_across_calls :
    ∃ (cssFiles : List CssFile) (names1 names2 : List String) (pageUrl : String)
      (elems1 elems2 : List StaticElem),
      names1 ≠ names2 ∧
      (checkStaticCCwithCss cssFiles names2 pageUrl elems2
          (checkStaticCCwithCss cssFiles names1 pageUrl elems1 []).1).2 ≠
        (checkStaticCCwithCss cssFiles names2 pageUrl elems2 []).2 := by
  refine ⟨[whiteCssFile], ["a.css"], [], "file:///d/p.html", [], [whiteElem], by decide, ?_⟩
  have hst : (checkStaticCCwithCss [whiteCssFile] ["a.css"] "file:///d/p.html" [] []).1 =
      [("a", [("color", "#FFFFFF")])] := by decide
  have hcon : (checkStaticCCwithCss [whiteCssFile] [] "file:///d/p.html" [whiteElem]
      [("a", [("color", "#FFFFFF")])]).2 =
      ⟨[⟨whiteElem.html, "d/p.html", CoreError.contrastFailure⟩], 1, 1⟩ := by
    have h2 : resolveStaticHex
        (parseAndAccumulateCSSFiles [whiteCssFile] [] [("a", [("color", "#FFFFFF")])]) whiteElem
        = some (some "#FFFFFF", some "#FFFFFF", false) := by decide
    show List.foldl
        (staticStep (parseAndAccumulateCSSFiles [whiteCssFile] [] [("a", [("color", "#FFFFFF")])])
          "file:///d/p.html") ⟨[], 0, 0⟩ [whiteElem] = _
    simp only [List.foldl]
    rw [staticStep_err _ _ _ _ _ _ _ _ (by decide) h2 checkContrast_white_white]
    decide
  have hfresh : (checkStaticCCwithCss [whiteCssFile] [] "file:///d/p.html" [whiteElem] []).2 =
      ⟨[], 1, 0⟩ := by
    have h2 : resolveStaticHex (parseAndAccumulateCSSFiles [whiteCssFile] [] []) whiteElem = none := by
      decide
    show List.foldl
        (staticStep (parseAndAccumulateCSSFiles [whiteCssFile] [] []) "file:///d/p.html")
        ⟨[], 0, 0⟩ [whiteElem] = _
    simp only [List.foldl]
    rw [staticStep_noCheck _ _ _ _ (by decide) h2]
  rw [hst, hcon, hfresh]
  decide
